import Mathlib

/-!
Verification of the hand-rolled Redux store tutorial
(`redux-create/src/createStore.js`, `redux-create/src/reducers/manageTodo.js`,
`src/features/todos/todosSlice.js`) against its design specification.

JavaScript values that flow through reducers as payloads and todo items are
modelled by the inductive `JVal`; `undefined` is `JVal.undef`.  A possibly
`undefined` prior state is modelled as an `Option`.  The store's internal
mutable `state` variable is modelled by explicit state passing: `dispatch`
returns the store with its `state` field replaced.
-/

namespace TodoApp

/-- Dynamic JavaScript values as they appear in this program: strings,
numbers, plain objects (ordered field lists) and arrays; `undef` stands for
`undefined`. -/
inductive JVal where
  | undef : JVal
  | str : String → JVal
  | num : Int → JVal
  | obj : List (String × JVal) → JVal
  | arr : List JVal → JVal

/-- Whether a JavaScript value is an array (`Array.isArray`). -/
def JVal.isArr : JVal → Bool
  | JVal.arr _ => true
  | _ => false

/-- An action: a plain object with a `type` discriminant and a `payload`
(`JVal.undef` when the action carries none, as in `{type: '@@INIT'}`). -/
structure Action where
  type : String
  payload : JVal

/-- The action dispatched at module load by `redux-create/src/index.js`:
`store.dispatch({type: '@@INIT'})`. -/
def initAction : Action := { type := "@@INIT", payload := JVal.undef }

/-- The state shape managed by `manageTodo`: `{todos: [...]}`. -/
structure TodoState where
  todos : List JVal

/-- The default-parameter value `{todos: []}` of `manageTodo`. -/
def initialTodoState : TodoState := { todos := [] }

/-- `xs.concat(v)`: JavaScript `Array.prototype.concat` with one argument
spreads an array argument one level and appends any other value (including
`undefined`) as a single element. -/
def jsConcat (xs : List JVal) (v : JVal) : List JVal :=
  match v with
  | JVal.arr ys => xs ++ ys
  | v => xs ++ [v]

/-- The classic reducer of `redux-create/src/reducers/manageTodo.js`:

```js
export default function manageTodo(state = \x7btodos: []\x7d, action){
  switch (action.type) {
    case 'ADD_TODO':
      return \x7btodos: state.todos.concat(action.payload)\x7d
    default:
      return state;
  }
}
```

The default parameter fires exactly when the prior state is `undefined`,
i.e. when the `Option` argument is `none`. -/
def manageTodo (state : Option TodoState) (action : Action) : TodoState :=
  let s := state.getD initialTodoState
  match action.type with
  | "ADD_TODO" => { todos := jsConcat s.todos action.payload }
  | _ => s

/-- The store object returned by `createStore(reducer)` in
`redux-create/src/createStore.js`: the captured `reducer` together with the
closed-over `let state` variable (`none` models the initial `undefined`). -/
structure Store (σ : Type) where
  reducer : Option σ → Action → σ
  state : Option σ

/-- `createStore(reducer)`: `let state;` leaves the state `undefined`; the
function performs no dispatch of its own. -/
def createStore {σ : Type} (reducer : Option σ → Action → σ) : Store σ :=
  { reducer := reducer, state := none }

/-- `getState()`: `return state;`. -/
def Store.getState {σ : Type} (s : Store σ) : Option σ :=
  s.state

/-- `dispatch(action)`: `state = reducer(state, action)` followed by
`render()` (the logging lines have no effect on state). -/
def Store.dispatch {σ : Type} (s : Store σ) (a : Action) : Store σ :=
  { s with state := some (s.reducer s.state a) }

/-- An observable event emitted by the store: `render()` being invoked while
the store's `getState()` reads the recorded value. -/
inductive StoreEvent (σ : Type) where
  | renderCall : Option σ → StoreEvent σ

/-- `dispatch(action)` with its notification made explicit: the assignment
`state = reducer(state, action)` happens first, then `render()` runs exactly
once against the updated store (the `render` of `index.js` re-renders `App`
with this store, so it observes state through `getState()` at that moment). -/
def Store.dispatchTraced {σ : Type} (s : Store σ) (a : Action) :
    Store σ × List (StoreEvent σ) :=
  let s' := s.dispatch a
  (s', [StoreEvent.renderCall s'.getState])

/-- Dispatching a sequence of actions in order, left to right. -/
def Store.dispatchAll {σ : Type} (s : Store σ) (as : List Action) : Store σ :=
  as.foldl Store.dispatch s

/-- The store of `createStore.js` with the reducer's possible exceptions made
explicit: a fallible reducer returns `Except`.  In
`state = reducer(state, action)` the call is evaluated before the
assignment, so a raise leaves `state` unassigned, skips `render()`, and
propagates to the caller of `dispatch` (the `Option ε` component below). -/
structure StoreE (σ ε : Type) where
  reducer : Option σ → Action → Except ε σ
  state : Option σ

/-- `createStore(reducer)` for a fallible reducer. -/
def createStoreE {σ ε : Type} (reducer : Option σ → Action → Except ε σ) :
    StoreE σ ε :=
  { reducer := reducer, state := none }

/-- `getState()` on the fallible-reducer store. -/
def StoreE.getState {σ ε : Type} (s : StoreE σ ε) : Option σ :=
  s.state

/-- `dispatch(action)` on the fallible-reducer store: on success the state is
assigned and `render()` runs once against the new state; on a raise nothing
is assigned, no render event occurs, and the error surfaces synchronously to
the dispatch caller as the third component. -/
def StoreE.dispatch {σ ε : Type} (s : StoreE σ ε) (a : Action) :
    StoreE σ ε × List (StoreEvent σ) × Option ε :=
  match s.reducer s.state a with
  | Except.ok v =>
      let s' := { s with state := some v }
      (s', [StoreEvent.renderCall s'.state], none)
  | Except.error e => (s, [], some e)

/-- Field access `o.k` on an object; `none` models `undefined` (also the
result of field access on a non-object). -/
def getField (v : JVal) (k : String) : Option JVal :=
  match v with
  | JVal.obj fields => fields.lookup k
  | _ => none

/-- The default-parameter value of `manageTodo` as a dynamic value:
`\x7btodos: []\x7d`. -/
def initialTodoJVal : JVal := JVal.obj [("todos", JVal.arr [])]

/-- `manageTodo` under dynamic JavaScript semantics, with the implicit
`TypeError` of `state.todos.concat(...)` made explicit: when `state.todos`
is missing/`undefined` or is not an array carrying `Array.prototype.concat`,
the member call raises instead of returning a state. -/
def manageTodoDyn (state : Option JVal) (action : Action) :
    Except String JVal :=
  let s := state.getD initialTodoJVal
  match action.type with
  | "ADD_TODO" =>
      match getField s "todos" with
      | some (JVal.arr ts) =>
          Except.ok (JVal.obj [("todos", JVal.arr (jsConcat ts action.payload))])
      | some _ => Except.error "TypeError: state.todos.concat is not a function"
      | none => Except.error "TypeError: cannot read concat of undefined"
  | _ => Except.ok s

/-- A dynamic state is a well-formed prior state for `manageTodo` when it is
`undefined` (the default parameter fires) or an object whose `todos` field
is an array. -/
def isTodoState : Option JVal → Prop
  | none => True
  | some s => ∃ ts, getField s "todos" = some (JVal.arr ts)

/-- The slice state of `src/features/todos/todosSlice.js`:
`initialState: \x7bentities: []\x7d`. -/
structure TodosSliceState where
  entities : List JVal

/-- The `todoAdded` case reducer of `todosSlice.js`:
`state.entities.push(action.payload)`.  Under the slice's produce-next-state
semantics this yields the state whose `entities` list is the prior list with
the payload appended as a single element (`push`, unlike `concat`, does not
spread an array argument). -/
def todoAdded (state : TodosSliceState) (action : Action) : TodosSliceState :=
  { state with entities := state.entities ++ [action.payload] }

/-- The payload `\x7btext: "buy groceries"\x7d` of the tutorial's first example
dispatch. -/
def groceriesTodo : JVal := JVal.obj [("text", JVal.str "buy groceries")]

/-- The payload `\x7btext: "watch netflix"\x7d` of the tutorial's second example
dispatch. -/
def netflixTodo : JVal := JVal.obj [("text", JVal.str "watch netflix")]

/-- A reducer that raises on every action, for exercising the failure path
of `dispatch`. -/
def throwingReducer : Option TodoState → Action → Except String TodoState :=
  fun _ _ => Except.error "boom"

/-- Unfolding `dispatchAll` on a cons: the head action is dispatched first. -/
theorem Store.dispatchAll_cons {σ : Type} (s : Store σ) (a : Action)
    (as : List Action) :
    s.dispatchAll (a :: as) = (s.dispatch a).dispatchAll as :=
  rfl

/-- The state after dispatching a sequence is the left fold of the reducer
(with its `some`-wrapping assignment) over the sequence, starting from the
store's current state. -/
theorem Store.dispatchAll_getState {σ : Type} :
    ∀ (as : List Action) (s : Store σ),
      (s.dispatchAll as).getState
        = as.foldl (fun st a => some (s.reducer st a)) s.getState := by
  intro as
  induction as with
  | nil => intro s; rfl
  | cons a as ih =>
      intro s
      rw [Store.dispatchAll_cons, ih]
      rfl

/-- A left fold whose step always returns `some` can start from `some` and be
computed entirely on unwrapped states. -/
theorem foldl_some_lift {σ : Type} (r : Option σ → Action → σ) :
    ∀ (as : List Action) (st : σ),
      as.foldl (fun st a => some (r st a)) (some st)
        = some (as.foldl (fun st a => r (some st) a) st) := by
  intro as
  induction as with
  | nil => intro st; rfl
  | cons a as ih => intro st; exact ih (r (some st) a)

/-- C1: for every reducer and every sequence of actions dispatched to a
store built by `createStore(reducer)` and initialized by the
`\x7btype:'@@INIT'\x7d` dispatch of `index.js`, `getState()` afterwards is exactly
the left fold of the reducer over the sequence starting from the initialized
state. -/
theorem c1_getState_is_foldl (σ : Type) (r : Option σ → Action → σ)
    (as : List Action) :
    (((createStore r).dispatch initAction).dispatchAll as).getState
      = some (as.foldl (fun st a => r (some st) a) (r none initAction)) := by
  rw [Store.dispatchAll_getState]
  exact foldl_some_lift r as (r none initAction)

/-- C2 counterexample: immediately after `createStore(manageTodo)` and
before any dispatch, `getState()` is `undefined` (`none`), not the state
`manageTodo(undefined, \x7btype:'@@INIT'\x7d) = \x7btodos: []\x7d` that the claim
requires construction itself to have installed. -/
theorem c2_counterexample :
    (createStore manageTodo).getState = none ∧
    manageTodo none initAction = initialTodoState ∧
    (createStore manageTodo).getState ≠ some (manageTodo none initAction) := by
  refine ⟨rfl, rfl, ?_⟩
  intro h
  exact Option.noConfusion h

/-- C2 amended: construction leaves the internal state undefined;
initialization happens through the module-load dispatch of
`\x7btype:'@@INIT'\x7d` performed right after construction in `index.js`, after
which (and before any further dispatch) `getState()` returns
`r(undefined, \x7btype:'@@INIT'\x7d)`. -/
theorem c2_amended_init_by_dispatch (σ : Type) (r : Option σ → Action → σ) :
    (createStore r).getState = none ∧
    ((createStore r).dispatch initAction).getState = some (r none initAction) :=
  ⟨rfl, rfl⟩

/-- C3: `dispatch(a)` replaces the stored state with `reducer(s, a)` and then
invokes the render callback exactly once, after the replacement, so both the
callback and the dispatch caller observe the new state. -/
theorem c3_dispatch_notifies_once (σ : Type) (s : Store σ) (a : Action) :
    (s.dispatchTraced a).1 = s.dispatch a ∧
    (s.dispatchTraced a).1.getState = some (s.reducer s.getState a) ∧
    (s.dispatchTraced a).2
      = [StoreEvent.renderCall (some (s.reducer s.getState a))] ∧
    (s.dispatchTraced a).2.length = 1 :=
  ⟨rfl, rfl, rfl, rfl⟩

/-- C4: an action whose `type` is not `'ADD_TODO'` leaves the state
unchanged (identity law of `manageTodo`). -/
theorem c4_unrecognized_is_identity (s : TodoState) (a : Action)
    (h : a.type ≠ "ADD_TODO") :
    manageTodo (some s) a = s := by
  unfold manageTodo
  split
  · exact absurd (by assumption) h
  · rfl

/-- C4 witness at the concrete unrecognized action `\x7btype:'REMOVE_TODO'\x7d`. -/
theorem c4_witness :
    ({ type := "REMOVE_TODO", payload := JVal.undef } : Action).type
      ≠ "ADD_TODO" ∧
    manageTodo (some { todos := [JVal.str "a"] })
        { type := "REMOVE_TODO", payload := JVal.undef }
      = { todos := [JVal.str "a"] } :=
  ⟨by decide, c4_unrecognized_is_identity _ _ (by decide)⟩

/-- C5: starting from the initialized state `\x7btodos: []\x7d`, dispatching the
groceries `ADD_TODO` yields `\x7btodos:[groceries]\x7d`, then dispatching the
netflix `ADD_TODO` yields `\x7btodos:[groceries, netflix]\x7d`; dispatching the
same groceries action twice appends it twice (no deduplication). -/
theorem c5_add_todo_appends :
    (((createStore manageTodo).dispatch initAction).dispatch
        { type := "ADD_TODO", payload := groceriesTodo }).getState
      = some { todos := [groceriesTodo] } ∧
    ((((createStore manageTodo).dispatch initAction).dispatch
        { type := "ADD_TODO", payload := groceriesTodo }).dispatch
        { type := "ADD_TODO", payload := netflixTodo }).getState
      = some { todos := [groceriesTodo, netflixTodo] } ∧
    ((((createStore manageTodo).dispatch initAction).dispatch
        { type := "ADD_TODO", payload := groceriesTodo }).dispatch
        { type := "ADD_TODO", payload := groceriesTodo }).getState
      = some { todos := [groceriesTodo, groceriesTodo] } :=
  ⟨rfl, rfl, rfl⟩

/-- C6: `manageTodo` is total over all action kinds: on every well-formed
prior state (including `undefined`) and every action, the dynamic-semantics
reducer returns a state and never raises. -/
theorem c6_manageTodo_total (st : Option JVal) (a : Action)
    (h : isTodoState st) :
    ∃ t, manageTodoDyn st a = Except.ok t := by
  cases st with
  | none =>
      unfold manageTodoDyn
      split
      · exact ⟨_, rfl⟩
      · exact ⟨_, rfl⟩
  | some s =>
      obtain ⟨ts, hts⟩ := h
      unfold manageTodoDyn
      split
      · simp only [Option.getD_some, hts]
        exact ⟨_, rfl⟩
      · exact ⟨_, rfl⟩

/-- C6 witness: the well-formed state `\x7btodos: []\x7d` with an `ADD_TODO`
action. -/
theorem c6_witness :
    isTodoState (some initialTodoJVal) ∧
    ∃ t, manageTodoDyn (some initialTodoJVal)
        { type := "ADD_TODO", payload := JVal.str "x" } = Except.ok t :=
  ⟨⟨[], rfl⟩, c6_manageTodo_total _ _ ⟨[], rfl⟩⟩

/-- C7: if the reducer raises while computing the new state, the failure
surfaces synchronously to the dispatch caller, no render callback is
invoked, and `getState()` afterwards still returns the prior state. -/
theorem c7_reducer_error (σ ε : Type) (s : StoreE σ ε) (a : Action) (e : ε)
    (h : s.reducer s.state a = Except.error e) :
    (s.dispatch a).1.getState = s.getState ∧
    (s.dispatch a).2.1 = [] ∧
    (s.dispatch a).2.2 = some e := by
  have hd : s.dispatch a = (s, [], some e) := by
    unfold StoreE.dispatch
    rw [h]
  rw [hd]
  exact ⟨rfl, rfl, rfl⟩

/-- C7 witness: a store whose reducer always raises `"boom"`. -/
theorem c7_witness :
    ((createStoreE throwingReducer).dispatch
        { type := "ADD_TODO", payload := JVal.undef }).1.getState
      = (createStoreE throwingReducer).getState ∧
    ((createStoreE throwingReducer).dispatch
        { type := "ADD_TODO", payload := JVal.undef }).2.1 = [] ∧
    ((createStoreE throwingReducer).dispatch
        { type := "ADD_TODO", payload := JVal.undef }).2.2 = some "boom" :=
  c7_reducer_error TodoState String (createStoreE throwingReducer)
    { type := "ADD_TODO", payload := JVal.undef } "boom" rfl

/-- C9: on every todo list and every non-array payload, the classic
`manageTodo` reducer and the slice `todoAdded` reducer produce the same
list: the prior list with the payload appended as its last element. -/
theorem c9_classic_slice_equiv (L : List JVal) (p : JVal)
    (h : p.isArr = false) :
    (manageTodo (some { todos := L })
        { type := "ADD_TODO", payload := p }).todos
      = (todoAdded { entities := L }
          { type := "todos/todoAdded", payload := p }).entities ∧
    (manageTodo (some { todos := L })
        { type := "ADD_TODO", payload := p }).todos
      = L ++ [p] := by
  have hc : jsConcat L p = L ++ [p] := by
    cases p <;> simp_all [jsConcat, JVal.isArr]
  exact ⟨hc, hc⟩

/-- C9 witness at the concrete non-array payload `"t"`. -/
theorem c9_witness :
    JVal.isArr (JVal.str "t") = false ∧
    ((manageTodo (some { todos := [] })
        { type := "ADD_TODO", payload := JVal.str "t" }).todos
      = (todoAdded { entities := [] }
          { type := "todos/todoAdded", payload := JVal.str "t" }).entities ∧
     (manageTodo (some { todos := [] })
        { type := "ADD_TODO", payload := JVal.str "t" }).todos
      = [] ++ [JVal.str "t"]) :=
  ⟨rfl, c9_classic_slice_equiv [] (JVal.str "t") rfl⟩

/-- C10: an `ADD_TODO` whose payload is itself an array appends each of its
elements individually (`concat` spreads array arguments one level): the
resulting todos list is the prior list with the array's elements appended,
its length grows by the array's length, and in particular a two-element
array payload grows an empty list to length 2, not 1. -/
theorem c10_array_payload_spreads (L ys : List JVal) :
    manageTodo (some { todos := L })
        { type := "ADD_TODO", payload := JVal.arr ys }
      = { todos := L ++ ys } ∧
    (manageTodo (some { todos := L })
        { type := "ADD_TODO", payload := JVal.arr ys }).todos.length
      = L.length + ys.length ∧
    (manageTodo (some { todos := [] })
        { type := "ADD_TODO",
          payload := JVal.arr [JVal.str "a", JVal.str "b"] }).todos.length
      = 2 := by
  refine ⟨rfl, ?_, rfl⟩
  show (L ++ ys).length = L.length + ys.length
  exact List.length_append L ys

end TodoApp
